import Mathlib

/-! A shallow embedding of the summarization service in `app.py` (Flask app calling
Google Gemini models), together with theorems settling the specified behavior of
its core: prompt construction (`build_summary_prompt`), the provider-fallback
orchestration (`summarize`, `image_context`), the raw-network client
(`_http_generate`, embedded as `http_generate`), and the `/analyze` route
(`analyze`).

Modelling conventions:
- Python `Optional[str]` return values become `Option String`; Python truthiness
  of a possibly-`None` string (`if not summary`) becomes `truthy`.
- External effects (the genai library handle, HTTP responses, PIL image opening)
  are passed in as explicit oracles; the embedded functions record the externally
  visible events they perform (library calls, HTTP requests issued) in an event
  trace, so that ordering and absence of calls are provable.
- Machine-level details with no decision logic (base64 payload encoding) are
  carried as the raw byte list; no specified property inspects the encoding.
-/

namespace TextSummarizer

/-- Python `str.lower()` on the characters of a string (embeds `.lower()` calls
in `build_summary_prompt`). -/
def strLower (s : String) : String :=
  String.mk (s.data.map Char.toLower)

/-- Drop leading whitespace characters. -/
def dropLeadingWs : List Char → List Char
  | [] => []
  | c :: cs => if c.isWhitespace then dropLeadingWs cs else c :: cs

/-- Python `str.strip()`: remove leading and trailing whitespace (embeds the
`.strip()` calls on input text and on extracted response text). -/
def pyStrip (s : String) : String :=
  String.mk ((dropLeadingWs ((dropLeadingWs s.data).reverse)).reverse)

/-- Python `x or default` for a possibly-missing string: `None` and `""` are
falsy and give the default (embeds `options.get("length") or "medium"` etc.). -/
def orDefault (v : Option String) (d : String) : String :=
  match v with
  | some s => if s = "" then d else s
  | none => d

/-- Python truthiness of an `Optional[str]`: `None` and `""` are falsy
(embeds `if not summary`, `if summary`, `if not analysis`). -/
def truthy (v : Option String) : Bool :=
  match v with
  | some s => decide (s ≠ "")
  | none => false

/-- Substring test: `pat` occurs contiguously in `s` (used to state whether an
error message or a prompt mentions a given phrase). -/
def containsSub (s pat : String) : Bool :=
  (List.range (s.data.length + 1)).any fun i => pat.data.isPrefixOf (s.data.drop i)

/-- A JSON value, for the raw-network response bodies parsed by
`_http_generate` (`r.json()`). -/
inductive Json where
  | null
  | str (s : String)
  | num (n : Int)
  | boolean (b : Bool)
  | arr (elems : List Json)
  | obj (fields : List (String × Json))

/-- Dictionary lookup on JSON object fields (Python `data[key]`, returning
`none` where Python raises `KeyError`/`TypeError`). -/
def lookupField : List (String × Json) → String → Option Json
  | [], _ => none
  | (k, v) :: rest, key => if k = key then some v else lookupField rest key

/-- `data[key]` on a JSON value. -/
def Json.getField : Json → String → Option Json
  | .obj fs, k => lookupField fs k
  | _, _ => none

/-- `data[i]` on a JSON value (list indexing). -/
def Json.getIdx : Json → Nat → Option Json
  | .arr xs, i => xs[i]?
  | _, _ => none

/-- A JSON value as a string, `none` when it is not one (Python would raise
`AttributeError` on `.strip()`). -/
def Json.asStr : Json → Option String
  | .str s => some s
  | _ => none

/-- The access path `data["candidates"][0]["content"]["parts"][0]["text"]` from
`_http_generate`; any step failing (missing key, short list, wrong shape,
non-string leaf) yields `none`, as the corresponding Python exception is caught. -/
def extract_candidate_text (data : Json) : Option String :=
  ((((((data.getField "candidates").bind (fun j => j.getIdx 0)).bind
      (fun j => j.getField "content")).bind
      (fun j => j.getField "parts")).bind
      (fun j => j.getIdx 0)).bind
      (fun j => j.getField "text")).bind Json.asStr

/-- `FALLBACK_MODEL = "gemini-1.5-flash"` (a literal in the source). -/
def FALLBACK_MODEL : String := "gemini-1.5-flash"

/-- The style options dictionary accepted with a request: `length`, `tone`,
`language`, each possibly absent (Python `options.get(...)`). -/
structure Options where
  length : Option String
  tone : Option String
  language : Option String
deriving DecidableEq

/-- The empty options dictionary `{}`. -/
def emptyOptions : Options := ⟨none, none, none⟩

/-- `style_map` from `build_summary_prompt`: `dict.get` semantics, `none` for
unrecognized keys. -/
def style_map : String → Option String
  | "short" => some "2-3 concise sentences"
  | "medium" => some "a tight single paragraph"
  | "detailed" => some "a detailed yet concise multi-paragraph summary"
  | _ => none

/-- `tone_map` from `build_summary_prompt`: `dict.get` semantics, `none` for
unrecognized keys. -/
def tone_map : String → Option String
  | "neutral" => some "neutral, factual prose"
  | "bullet" => some "concise bullet points"
  | "technical" => some "precise technical language"
  | _ => none

/-- `build_summary_prompt(text, options)`: resolves length/tone through the two
maps (defaulting to the `medium`/`neutral` entries), appends ` in {language}`
when a language is given, and assembles the fixed instruction string around the
trimmed input text. -/
def build_summary_prompt (text : String) (options : Options) : String :=
  let length := strLower (orDefault options.length "medium")
  let tone := strLower (orDefault options.tone "neutral")
  let language := orDefault options.language ""
  let style := (style_map length).getD "a tight single paragraph"
  let tone_desc := (tone_map tone).getD "neutral, factual prose"
  let lang_part := if language = "" then "" else " in " ++ language
  "You are a careful assistant that preserves facts, figures, and names. " ++
    "Summarize the following text as " ++ style ++ " using " ++ tone_desc ++ lang_part ++ ". " ++
    "Highlight critical numbers. If there is uncertainty, mention it briefly.\n\n" ++ pyStrip text

/-- Process-wide configuration: the API key (`API_KEY`, possibly empty), the
preferred model name (`DEFAULT_MODEL`, environment-configurable), and the model
name the managed-library handle `_genai_model` wraps (`none` when the handle is
unavailable). -/
structure Config where
  apiKey : String
  defaultModel : String
  genaiModel : Option String
deriving DecidableEq

/-- Outcome of one attempt to construct `genai.GenerativeModel(name)` at
process start. -/
inductive InitOutcome where
  | ok
  | failed
deriving DecidableEq

/-- The module-level initialization of `_genai_model` (lines 30-42 of the
source): requires the library and a key; tries the preferred model, then
`FALLBACK_MODEL`, and gives `none` when both constructions fail. -/
def init_genai_model (libPresent : Bool) (key : String) (tryInit : String → InitOutcome)
    (defaultModel : String) : Option String :=
  if libPresent ∧ key ≠ "" then
    match tryInit defaultModel with
    | .ok => some defaultModel
    | .failed =>
      match tryInit FALLBACK_MODEL with
      | .ok => some FALLBACK_MODEL
      | .failed => none
  else none

/-- Externally visible events performed while serving one request. -/
inductive Ev where
  | summarizeEntered
  | genaiCall
  | httpReq (model : String)
  | imageContextEntered
  | visionCall
deriving DecidableEq

/-- `_genai_summarize(prompt)`: `none` immediately when the handle is
unavailable; otherwise one library call whose extracted text (or failure) is the
answer of the oracle `gen`. Returns the result together with the events performed. -/
def genai_summarize (cfg : Config) (gen : String → Option String) (prompt : String) :
    Option String × List Ev :=
  match cfg.genaiModel with
  | none => (none, [])
  | some _ => (gen prompt, [Ev.genaiCall])

/-- The endpoint URL built by `_http_generate`. -/
def generate_url (model_name : String) : String :=
  "https://generativelanguage.googleapis.com/v1beta/models/" ++ model_name ++ ":generateContent"

/-- The request body built by `_http_generate`. -/
def generate_body (prompt : String) : Json :=
  Json.obj [("contents", Json.arr [Json.obj [("parts",
    Json.arr [Json.obj [("text", Json.str prompt)]])]])]

/-- Outcome of the `requests.post` call in `_http_generate`: an exception
(network error, timeout, or a status-200 body on which `r.json()` raises —
carried as `resp 200 none`), or a response with its status and parsed body. -/
inductive HttpOutcome where
  | exn
  | resp (status : Nat) (body : Option Json)

/-- `_http_generate(prompt, model_name)`: `none` without any request when the
key is empty; otherwise one HTTP request whose outcome is the answer of the
oracle `net`. Status 200 with the expected shape yields the trimmed first text part;
anything else yields `none`. Returns the result with the requests issued. -/
def http_generate (key : String) (net : String → String → HttpOutcome)
    (prompt model_name : String) : Option String × List Ev :=
  if key = "" then (none, [])
  else
    (match net prompt model_name with
     | .exn => none
     | .resp status body =>
       if status = 200 then
         match body with
         | none => none
         | some data => (extract_candidate_text data).map pyStrip
       else none,
     [Ev.httpReq model_name])

/-- The successful result dictionary of `summarize`: the summary plus the
`meta` fields recording which model and source produced it. -/
structure SummarizeOk where
  summary : String
  model : String
  source : String
  options : Options
deriving DecidableEq

/-- `summarize(text, options)`: builds the prompt, then tries the managed
library, the raw-network primary model, and the raw-network fallback model in
that order, stopping at the first truthy summary; raises (here: `Except.error`)
with the fixed message when all three fail. The event trace records the entry
and every provider interaction actually performed. -/
def summarize (cfg : Config) (gen : String → Option String)
    (net : String → String → HttpOutcome) (text : String) (options : Options) :
    Except String SummarizeOk × List Ev :=
  let prompt := build_summary_prompt text options
  let g := genai_summarize cfg gen prompt
  if truthy g.1 then
    (.ok ⟨g.1.getD "", cfg.defaultModel, "genai", options⟩, Ev.summarizeEntered :: g.2)
  else
    let h1 := http_generate cfg.apiKey net prompt cfg.defaultModel
    if truthy h1.1 then
      (.ok ⟨h1.1.getD "", cfg.defaultModel, "http", options⟩,
        Ev.summarizeEntered :: (g.2 ++ h1.2))
    else
      let h2 := http_generate cfg.apiKey net prompt FALLBACK_MODEL
      if truthy h2.1 then
        (.ok ⟨h2.1.getD "", FALLBACK_MODEL, "http-fallback", options⟩,
          Ev.summarizeEntered :: (g.2 ++ h1.2 ++ h2.2))
      else
        (.error "All summarization methods failed",
          Ev.summarizeEntered :: (g.2 ++ h1.2 ++ h2.2))

/-- An uploaded image file: its raw bytes and its declared mimetype
(`file_storage.mimetype`, possibly absent). -/
structure ImageFile where
  bytes : List Nat
  mimetype : Option String
deriving DecidableEq

/-- The `inline_data` part built by `encode_image`; the base64 payload is
carried as the raw byte list (no specified property inspects the encoding). -/
structure ImagePart where
  data : List Nat
  mime_type : String
deriving DecidableEq

/-- `encode_image(file_storage)`: the inline-data part (with the `image/png`
mimetype default) together with the raw bytes. -/
def encode_image (f : ImageFile) : ImagePart × List Nat :=
  (⟨f.bytes, orDefault f.mimetype "image/png"⟩, f.bytes)

/-- `image_context(prompt, image_part)`: one managed-library vision call when
the handle is available, whose extracted text (or failure) is the answer of
the oracle `vision`; `none` otherwise. No raw-network fallback exists for images. -/
def image_context (cfg : Config) (vision : String → ImagePart → Option String)
    (prompt : String) (image_part : ImagePart) : Option String × List Ev :=
  match cfg.genaiModel with
  | none => (none, [Ev.imageContextEntered])
  | some _ => (vision prompt image_part, [Ev.imageContextEntered, Ev.visionCall])

/-- The fixed base prompt of the image branch of `analyze`. -/
def image_base : String :=
  "You are an assistant describing the provided image. " ++
    "Identify notable objects, text, and context succinctly."

/-- The image-branch prompt: the base prompt plus a respond-in-language clause
when a language is given. -/
def image_prompt (language : String) : String :=
  if language = "" then image_base else image_base ++ " Respond in " ++ language ++ "."

/-- The sentinel analysis text substituted when no vision analysis is produced. -/
def vision_sentinel : String :=
  "(Vision model unavailable or failed. No analysis produced.)"

/-- The JSON payload of a summarization request, after `request.get_json`
(`none` fields for missing keys). A body that failed to parse is carried as
`none` at the call site. -/
structure JsonPayload where
  mode : Option String
  text : Option String
  options : Option Options
deriving DecidableEq

/-- An incoming `/analyze` request: a JSON body (content type
`application/json`; `none` when `get_json(silent=True)` produced nothing), or a
form body with its `mode` field, optional `image` file, and optional parsed
`options` (`none` when `json.loads` failed). -/
inductive ReqBody where
  | jsonBody (payload : Option JsonPayload)
  | formBody (mode : String) (image : Option ImageFile) (optionsRaw : Option Options)

/-- A response from the `/analyze` route: an error with its HTTP status, a
summarization success, or an image-analysis success with its metadata. -/
inductive AnalyzeResp where
  | err (status : Nat) (message : String)
  | summaryResp (status : Nat) (result : SummarizeOk)
  | imageResp (status : Nat) (analysis : String) (model : String)
      (image_size : String) (options : Options)
deriving DecidableEq

/-- The image-size string displayed in the image response metadata:
`{width}x{height}` when `PIL.Image.open` succeeds on the bytes, `unknown`
when it raises. -/
def size_str_of (pil : List Nat → Option (Nat × Nat)) (bytes : List Nat) : String :=
  match pil bytes with
  | some (w, h) => toString w ++ "x" ++ toString h
  | none => "unknown"

/-- Whether an `/analyze` response is an image-analysis success (HTTP 200). -/
def isImage200 : AnalyzeResp → Bool
  | .imageResp 200 _ _ _ _ => true
  | _ => false

/-- The `analyze` route handler. JSON branch: mode must be `summarize`, text
must be non-empty after trimming, then `summarize` runs (502 on its error).
Form branch with mode `image_context`: the `image` file must be present, then
the analysis prompt is built, `image_context` runs, and a 200 response is always
produced, substituting `vision_sentinel` for a falsy analysis. `pil` is the
oracle for `PIL.Image.open` (the image dimensions, `none` when it raises). -/
def analyze (cfg : Config) (gen : String → Option String)
    (net : String → String → HttpOutcome) (vision : String → ImagePart → Option String)
    (pil : List Nat → Option (Nat × Nat)) (req : ReqBody) : AnalyzeResp × List Ev :=
  match req with
  | .jsonBody payload =>
    let data := payload.getD ⟨none, none, none⟩
    let mode := orDefault data.mode "summarize"
    if mode ≠ "summarize" then (.err 400 "Unsupported JSON mode", [])
    else
      let text := pyStrip (orDefault data.text "")
      let options := data.options.getD emptyOptions
      if text = "" then (.err 400 "No text provided", [])
      else
        match summarize cfg gen net text options with
        | (.ok r, tr) => (.summaryResp 200 r, tr)
        | (.error e, tr) => (.err 502 e, tr)
  | .formBody mode image optionsRaw =>
    if mode = "image_context" then
      match image with
      | none => (.err 400 "Image file missing", [])
      | some f =>
        let options := optionsRaw.getD emptyOptions
        let language := orDefault options.language ""
        let ep := encode_image f
        let size_str := size_str_of pil ep.2
        let ic := image_context cfg vision (image_prompt language) ep.1
        let analysis := if truthy ic.1 then ic.1.getD "" else vision_sentinel
        (.imageResp 200 analysis cfg.defaultModel size_str options, ic.2)
    else (.err 400 "Unsupported request format or mode", [])

end TextSummarizer


namespace TextSummarizer

/-- Whether an event is an issued HTTP request. -/
def isHttpReq : Ev → Bool
  | .httpReq _ => true
  | _ => false

theorem genai_trace_sublist (cfg : Config) (gen : String → Option String) (p : String) :
    (genai_summarize cfg gen p).2.Sublist [Ev.genaiCall] := by
  cases h : cfg.genaiModel <;> simp [genai_summarize, h]

theorem http_trace_sublist (key : String) (net : String → String → HttpOutcome)
    (p m : String) : (http_generate key net p m).2.Sublist [Ev.httpReq m] := by
  by_cases h : key = "" <;> simp [http_generate, h]

theorem genai_trace_no_http (cfg : Config) (gen : String → Option String) (p : String)
    (m : String) : Ev.httpReq m ∉ (genai_summarize cfg gen p).2 := by
  cases h : cfg.genaiModel <;> simp [genai_summarize, h]

theorem genai_trace_countHttp (cfg : Config) (gen : String → Option String) (p : String) :
    (genai_summarize cfg gen p).2.countP isHttpReq = 0 := by
  cases h : cfg.genaiModel <;> simp [genai_summarize, h, isHttpReq, List.countP_nil, List.countP_cons]

theorem http_trace_countHttp (key : String) (net : String → String → HttpOutcome)
    (p m : String) : (http_generate key net p m).2.countP isHttpReq ≤ 1 := by
  by_cases h : key = "" <;> simp [http_generate, h, isHttpReq, List.countP_nil, List.countP_cons]

/-- C1: for every summarization request, the orchestrator attempts the
managed-library client, then the raw-network client with the primary model,
then the raw-network client with the secondary model, in that fixed order
(the event trace is a sublist of the canonical sequence); it returns the text
of the first attempt yielding a non-empty string, and performs no further
attempts after a success (no HTTP request at all after a managed-library
success; at most one HTTP request when the primary raw-network call succeeds). -/
theorem summarize_fallback_order (cfg : Config) (gen : String → Option String)
    (net : String → String → HttpOutcome) (text : String) (options : Options) :
    (summarize cfg gen net text options).2.Sublist
      [Ev.summarizeEntered, Ev.genaiCall, Ev.httpReq cfg.defaultModel,
        Ev.httpReq FALLBACK_MODEL] ∧
    (truthy (genai_summarize cfg gen (build_summary_prompt text options)).1 = true →
      (summarize cfg gen net text options).1 =
        .ok ⟨(genai_summarize cfg gen (build_summary_prompt text options)).1.getD "",
          cfg.defaultModel, "genai", options⟩ ∧
      ∀ m, Ev.httpReq m ∉ (summarize cfg gen net text options).2) ∧
    (truthy (genai_summarize cfg gen (build_summary_prompt text options)).1 = false →
      truthy (http_generate cfg.apiKey net (build_summary_prompt text options)
          cfg.defaultModel).1 = true →
      (summarize cfg gen net text options).1 =
        .ok ⟨(http_generate cfg.apiKey net (build_summary_prompt text options)
            cfg.defaultModel).1.getD "", cfg.defaultModel, "http", options⟩ ∧
      (summarize cfg gen net text options).2.countP isHttpReq ≤ 1) ∧
    (truthy (genai_summarize cfg gen (build_summary_prompt text options)).1 = false →
      truthy (http_generate cfg.apiKey net (build_summary_prompt text options)
          cfg.defaultModel).1 = false →
      truthy (http_generate cfg.apiKey net (build_summary_prompt text options)
          FALLBACK_MODEL).1 = true →
      (summarize cfg gen net text options).1 =
        .ok ⟨(http_generate cfg.apiKey net (build_summary_prompt text options)
            FALLBACK_MODEL).1.getD "", FALLBACK_MODEL, "http-fallback", options⟩) := by
  set p := build_summary_prompt text options with hp
  have tg := genai_trace_sublist cfg gen p
  have th1 := http_trace_sublist cfg.apiKey net p cfg.defaultModel
  have th2 := http_trace_sublist cfg.apiKey net p FALLBACK_MODEL
  refine ⟨?_, ?_, ?_, ?_⟩
  · unfold summarize
    rw [← hp]
    by_cases h1 : truthy (genai_summarize cfg gen p).1
    · simp only [h1, if_true]
      exact List.Sublist.cons₂ _ (tg.trans (by simp))
    · simp only [h1, if_false, Bool.false_eq_true]
      by_cases h2 : truthy (http_generate cfg.apiKey net p cfg.defaultModel).1
      · simp only [h2, if_true]
        exact List.Sublist.cons₂ _ ((tg.append th1).trans (by simp))
      · simp only [h2, if_false, Bool.false_eq_true]
        by_cases h3 : truthy (http_generate cfg.apiKey net p FALLBACK_MODEL).1 <;>
          simp only [h3, if_true, if_false, Bool.false_eq_true] <;>
          exact List.Sublist.cons₂ _ (((tg.append th1).append th2).trans (by simp))
  · intro h1
    unfold summarize
    rw [← hp]
    simp only [h1, if_true]
    refine ⟨by simp, ?_⟩
    intro m
    simp only [List.mem_cons]
    rintro (h | h)
    · exact Ev.noConfusion h
    · exact genai_trace_no_http cfg gen p m h
  · intro h1 h2
    unfold summarize
    rw [← hp]
    simp only [h1, h2, if_true, if_false, Bool.false_eq_true]
    refine ⟨by simp, ?_⟩
    have hg := genai_trace_countHttp cfg gen p
    have hh := http_trace_countHttp cfg.apiKey net p cfg.defaultModel
    simp [List.countP_cons, List.countP_append, hg, isHttpReq]
    omega
  · intro h1 h2 h3
    unfold summarize
    rw [← hp]
    simp only [h1, h2, h3, if_true, if_false, Bool.false_eq_true]

/-- C2 (amended): when the managed-library attempt and both raw-network
attempts all return absent, `summarize` fails hard (no result record) with the
fixed message `All summarization methods failed`. -/
theorem summarize_exhaustion_error (cfg : Config) (gen : String → Option String)
    (net : String → String → HttpOutcome) (text : String) (options : Options)
    (h1 : truthy (genai_summarize cfg gen (build_summary_prompt text options)).1 = false)
    (h2 : truthy (http_generate cfg.apiKey net (build_summary_prompt text options)
        cfg.defaultModel).1 = false)
    (h3 : truthy (http_generate cfg.apiKey net (build_summary_prompt text options)
        FALLBACK_MODEL).1 = false) :
    (summarize cfg gen net text options).1 = .error "All summarization methods failed" := by
  unfold summarize
  simp only [h1, h2, h3, if_false, Bool.false_eq_true]

/-- Witness for `summarize_exhaustion_error`: a concrete configuration where
all three tiers return absent. -/
theorem summarize_exhaustion_error_witness :
    (summarize ⟨"k", "gemini-2.0-flash", some "gemini-2.0-flash"⟩ (fun _ => none)
        (fun _ _ => .exn) "hello" emptyOptions).1 =
      .error "All summarization methods failed" :=
  summarize_exhaustion_error ⟨"k", "gemini-2.0-flash", some "gemini-2.0-flash"⟩
    (fun _ => none) (fun _ _ => .exn) "hello" emptyOptions rfl rfl rfl

/-- C2 counterexample: with every tier absent, the raised error is the fixed
string `All summarization methods failed`, which does not reference the last
attempted model (`gemini-1.5-flash`); the claim that the error references the
secondary model is false. -/
theorem summarize_exhaustion_error_no_model_cex :
    (summarize ⟨"k", "gemini-2.0-flash", some "gemini-2.0-flash"⟩ (fun _ => none)
        (fun _ _ => .exn) "hello" emptyOptions).1 =
      .error "All summarization methods failed" ∧
    containsSub "All summarization methods failed" FALLBACK_MODEL = false := by
  constructor
  · rfl
  · decide

/-- C3 counterexample: the state where the managed handle wraps the secondary
model is reachable at initialization (preferred-model construction fails,
fallback succeeds); when that handle then produces the text, the result record
still reports the primary model name, so the recorded model name does not
identify the attempt that actually produced the text. -/
theorem summarize_meta_model_cex :
    init_genai_model true "k"
        (fun m => if m = "gemini-2.0-flash" then .failed else .ok) "gemini-2.0-flash" =
      some FALLBACK_MODEL ∧
    (summarize ⟨"k", "gemini-2.0-flash", some FALLBACK_MODEL⟩ (fun _ => some "X")
        (fun _ _ => .exn) "t" emptyOptions).1 =
      .ok ⟨"X", "gemini-2.0-flash", "genai", emptyOptions⟩ ∧
    "gemini-2.0-flash" ≠ FALLBACK_MODEL := by
  refine ⟨by decide, rfl, by decide⟩

/-- C3 (amended): the provider tag identifies the tier that produced the text
(`genai`, `http`, `http-fallback`, the source spellings of managed-library /
raw-network-primary / raw-network-fallback); the model name does so for the two
raw-network tiers, while a managed-library success always records the
configured primary model name (even if the handle was initialized with the
secondary model). In particular, when the managed tier yields absent and the
primary raw-network call yields absent but the secondary one succeeds with text
X, the result carries X, the secondary model name, and the `http-fallback` tag. -/
theorem summarize_result_provenance (cfg : Config) (gen : String → Option String)
    (net : String → String → HttpOutcome) (text : String) (options : Options) :
    (truthy (genai_summarize cfg gen (build_summary_prompt text options)).1 = true →
      (summarize cfg gen net text options).1 =
        .ok ⟨(genai_summarize cfg gen (build_summary_prompt text options)).1.getD "",
          cfg.defaultModel, "genai", options⟩) ∧
    (truthy (genai_summarize cfg gen (build_summary_prompt text options)).1 = false →
      truthy (http_generate cfg.apiKey net (build_summary_prompt text options)
          cfg.defaultModel).1 = true →
      (summarize cfg gen net text options).1 =
        .ok ⟨(http_generate cfg.apiKey net (build_summary_prompt text options)
            cfg.defaultModel).1.getD "", cfg.defaultModel, "http", options⟩) ∧
    (truthy (genai_summarize cfg gen (build_summary_prompt text options)).1 = false →
      truthy (http_generate cfg.apiKey net (build_summary_prompt text options)
          cfg.defaultModel).1 = false →
      ∀ X, (http_generate cfg.apiKey net (build_summary_prompt text options)
          FALLBACK_MODEL).1 = some X → X ≠ "" →
        (summarize cfg gen net text options).1 =
          .ok ⟨X, FALLBACK_MODEL, "http-fallback", options⟩) := by
  set p := build_summary_prompt text options with hp
  refine ⟨?_, ?_, ?_⟩
  · intro h1
    unfold summarize
    rw [← hp]
    simp only [h1, if_true]
  · intro h1 h2
    unfold summarize
    rw [← hp]
    simp only [h1, h2, if_true, if_false, Bool.false_eq_true]
  · intro h1 h2 X hX hne
    unfold summarize
    rw [← hp]
    have h3 : truthy (http_generate cfg.apiKey net p FALLBACK_MODEL).1 = true := by
      rw [hX]
      simp [truthy, hne]
    simp only [h1, h2, h3, if_true, if_false, Bool.false_eq_true, hX]
    simp [truthy, hne]

/-- Witness for `summarize_result_provenance`: managed client unavailable, a
primary raw-network failure, and a secondary raw-network success whose response
body carries the text `X`; the result reports `X`, the secondary model, and the
`http-fallback` tag. -/
theorem summarize_result_provenance_witness :
    (summarize ⟨"k", "gemini-2.0-flash", none⟩ (fun _ => none)
        (fun _ m => if m = FALLBACK_MODEL then
          .resp 200 (some (Json.obj [("candidates", Json.arr [Json.obj
            [("content", Json.obj [("parts", Json.arr [Json.obj
              [("text", Json.str "X")]])])]])]))
          else .exn) "t" emptyOptions).1 =
      .ok ⟨"X", FALLBACK_MODEL, "http-fallback", emptyOptions⟩ :=
  (summarize_result_provenance ⟨"k", "gemini-2.0-flash", none⟩ (fun _ => none)
    (fun _ m => if m = FALLBACK_MODEL then
      .resp 200 (some (Json.obj [("candidates", Json.arr [Json.obj
        [("content", Json.obj [("parts", Json.arr [Json.obj
          [("text", Json.str "X")]])])]])]))
      else .exn) "t" emptyOptions).2.2 rfl rfl "X" rfl (by decide)

theorem char_ofNat_toNat (n : Nat) (hv : n.isValidChar) : (Char.ofNat n).toNat = n := by
  simp [Char.ofNat, hv, Char.ofNatAux, Char.toNat, UInt32.toNat, BitVec.toNat_ofNatLt]

theorem char_toLower_toLower (c : Char) : c.toLower.toLower = c.toLower := by
  unfold Char.toLower
  by_cases h : c.toNat ≥ 65 ∧ c.toNat ≤ 90
  · rw [if_pos h]
    have hv : (c.toNat + 32).isValidChar := by left; omega
    have ht : (Char.ofNat (c.toNat + 32)).toNat = c.toNat + 32 := char_ofNat_toNat _ hv
    rw [if_neg (by omega)]
  · rw [if_neg h, if_neg h]

theorem strLower_strLower (s : String) : strLower (strLower s) = strLower s := by
  simp only [strLower, List.map_map]
  rw [String.ext_iff]
  simp only [Function.comp]
  exact List.map_congr_left fun c _ => char_toLower_toLower c

theorem strLower_eq_empty_iff (s : String) : strLower s = "" ↔ s = "" := by
  cases s with
  | mk data =>
    constructor
    · intro h
      rw [String.ext_iff] at h ⊢
      simpa [strLower] using h
    · intro h
      rw [h]
      rfl

/-- C9: length and tone are matched case-insensitively: the prompt built with
length L and tone T equals the prompt built with their lowercased forms. -/
theorem prompt_case_insensitive (text : String) (o : Options) (L T : String) :
    build_summary_prompt text ⟨some L, some T, o.language⟩ =
      build_summary_prompt text ⟨some (strLower L), some (strLower T), o.language⟩ := by
  have key : ∀ (x d : String), strLower (orDefault (some x) d) =
      strLower (orDefault (some (strLower x)) d) := by
    intro x d
    by_cases hx : x = ""
    · subst hx
      simp [orDefault, strLower_eq_empty_iff]
    · have hx2 : strLower x ≠ "" := fun h => hx ((strLower_eq_empty_iff x).mp h)
      simp [orDefault, hx, hx2, strLower_strLower]
  simp only [build_summary_prompt]
  rw [← key L "medium", ← key T "neutral"]

/-- `dict.get` on `style_map` misses every key outside the three recognized
length values. -/
theorem style_map_none (s : String) (h : s ∉ (["short", "medium", "detailed"] : List String)) :
    style_map s = none := by
  simp only [List.mem_cons, not_or] at h
  unfold style_map
  split
  · exact absurd rfl h.1
  · exact absurd rfl h.2.1
  · exact absurd rfl h.2.2.1
  · rfl

/-- `dict.get` on `tone_map` misses every key outside the three recognized
tone values. -/
theorem tone_map_none (s : String) (h : s ∉ (["neutral", "bullet", "technical"] : List String)) :
    tone_map s = none := by
  simp only [List.mem_cons, not_or] at h
  unfold tone_map
  split
  · exact absurd rfl h.1
  · exact absurd rfl h.2.1
  · exact absurd rfl h.2.2.1
  · rfl

/-- C5 counterexample: the length value `SHORT` is outside
`{short, medium, detailed}` as written, yet the prompt built with it is not the
prompt built with `medium` (case-insensitive matching resolves it to `short`
instead), so the claim as stated fails. -/
theorem prompt_default_substitution_cex :
    ("SHORT" ∉ (["short", "medium", "detailed"] : List String)) ∧
    build_summary_prompt "t" ⟨some "SHORT", none, none⟩ ≠
      build_summary_prompt "t" ⟨some "medium", none, none⟩ := by
  constructor
  · decide
  · decide

/-- C5 (amended): when the lowercased (empty-defaulted) length value is outside
`{short, medium, detailed}`, the prompt equals the one built with
`length = medium`; when the lowercased (empty-defaulted) tone value is outside
`{neutral, bullet, technical}`, the prompt equals the one built with
`tone = neutral`. -/
theorem prompt_default_substitution (text : String) (o : Options) :
    (strLower (orDefault o.length "medium") ∉ (["short", "medium", "detailed"] : List String) →
      build_summary_prompt text o =
        build_summary_prompt text ⟨some "medium", o.tone, o.language⟩) ∧
    (strLower (orDefault o.tone "neutral") ∉ (["neutral", "bullet", "technical"] : List String) →
      build_summary_prompt text o =
        build_summary_prompt text ⟨o.length, some "neutral", o.language⟩) := by
  constructor
  · intro h
    have hs : style_map (strLower (orDefault o.length "medium")) = none := style_map_none _ h
    have hm : style_map (strLower (orDefault (some "medium") "medium")) =
        some "a tight single paragraph" := rfl
    simp only [build_summary_prompt, hs, hm, Option.getD_none, Option.getD_some]
  · intro h
    have hs : tone_map (strLower (orDefault o.tone "neutral")) = none := tone_map_none _ h
    have hm : tone_map (strLower (orDefault (some "neutral") "neutral")) =
        some "neutral, factual prose" := rfl
    simp only [build_summary_prompt, hs, hm, Option.getD_none, Option.getD_some]

/-- Witness for `prompt_default_substitution`: the unrecognized pair
`length = poem`, `tone = angry` builds the same prompt as `medium`/`neutral`. -/
theorem prompt_default_substitution_witness :
    (strLower (orDefault (some "poem") "medium") ∉
        (["short", "medium", "detailed"] : List String)) ∧
    build_summary_prompt "t" ⟨some "poem", some "angry", none⟩ =
      build_summary_prompt "t" ⟨some "medium", some "angry", none⟩ := by
  refine ⟨by decide, ?_⟩
  exact (prompt_default_substitution "t" ⟨some "poem", some "angry", none⟩).1 (by decide)

/-- The resolved style clause of a prompt (the `medium` entry for unrecognized
lengths). -/
def resolved_style (o : Options) : String :=
  (style_map (strLower (orDefault o.length "medium"))).getD "a tight single paragraph"

/-- The resolved tone clause of a prompt (the `neutral` entry for unrecognized
tones). -/
def resolved_tone (o : Options) : String :=
  (tone_map (strLower (orDefault o.tone "neutral"))).getD "neutral, factual prose"

theorem build_summary_prompt_decomp (text : String) (o : Options) :
    build_summary_prompt text o =
      "You are a careful assistant that preserves facts, figures, and names. " ++
        "Summarize the following text as " ++ resolved_style o ++ " using " ++
        resolved_tone o ++
        (if orDefault o.language "" = "" then "" else " in " ++ orDefault o.language "") ++
        ". " ++
        "Highlight critical numbers. If there is uncertainty, mention it briefly.\n\n" ++
        pyStrip text := rfl

theorem containsSub_append_mid (a pat b : String) :
    containsSub (a ++ pat ++ b) pat = true := by
  unfold containsSub
  rw [List.any_eq_true]
  refine ⟨a.data.length, ?_, ?_⟩
  · rw [List.mem_range]
    simp [String.data_append]
    omega
  · simp only [String.data_append, List.append_assoc, List.drop_append_of_le_length,
      List.drop_length, le_refl, List.nil_append]
    rw [List.isPrefixOf_iff_prefix]
    exact List.prefix_append pat.data b.data

/-- C6: for a non-empty language option, both the summarization prompt and the
image prompt carry a respond-in-language directive (the summarization prompt
inserts ` in {language}` before the closing period, the image prompt appends
` Respond in {language}.`); for an empty or absent language the prompts are
exactly the directive-free forms, and the fixed image base prompt provably does
not mention `Respond in`. -/
theorem prompt_language_clause (text : String) (o : Options) :
    (orDefault o.language "" ≠ "" →
      build_summary_prompt text o =
        "You are a careful assistant that preserves facts, figures, and names. " ++
          "Summarize the following text as " ++ resolved_style o ++ " using " ++
          resolved_tone o ++ (" in " ++ orDefault o.language "") ++ ". " ++
          "Highlight critical numbers. If there is uncertainty, mention it briefly.\n\n" ++
          pyStrip text ∧
      containsSub (build_summary_prompt text o) (" in " ++ orDefault o.language "") = true ∧
      image_prompt (orDefault o.language "") =
        image_base ++ " Respond in " ++ orDefault o.language "" ++ "." ∧
      containsSub (image_prompt (orDefault o.language ""))
        (" Respond in " ++ orDefault o.language "" ++ ".") = true) ∧
    (orDefault o.language "" = "" →
      build_summary_prompt text o =
        "You are a careful assistant that preserves facts, figures, and names. " ++
          "Summarize the following text as " ++ resolved_style o ++ " using " ++
          resolved_tone o ++ ". " ++
          "Highlight critical numbers. If there is uncertainty, mention it briefly.\n\n" ++
          pyStrip text ∧
      image_prompt (orDefault o.language "") = image_base ∧
      containsSub image_base "Respond in" = false) := by
  constructor
  · intro h
    have hb : build_summary_prompt text o =
        "You are a careful assistant that preserves facts, figures, and names. " ++
          "Summarize the following text as " ++ resolved_style o ++ " using " ++
          resolved_tone o ++ (" in " ++ orDefault o.language "") ++ ". " ++
          "Highlight critical numbers. If there is uncertainty, mention it briefly.\n\n" ++
          pyStrip text := by
      rw [build_summary_prompt_decomp, if_neg h]
    refine ⟨hb, ?_, ?_, ?_⟩
    · rw [hb]
      have := containsSub_append_mid
        ("You are a careful assistant that preserves facts, figures, and names. " ++
          "Summarize the following text as " ++ resolved_style o ++ " using " ++
          resolved_tone o)
        (" in " ++ orDefault o.language "")
        (". Highlight critical numbers. If there is uncertainty, mention it briefly.\n\n" ++
          pyStrip text)
      rw [← this]
      congr 1
      simp [String.append_assoc]
    · unfold image_prompt
      rw [if_neg h]
    · unfold image_prompt
      rw [if_neg h]
      have := containsSub_append_mid image_base
        (" Respond in " ++ orDefault o.language "" ++ ".") ""
      rw [← this]
      congr 1
      simp [String.append_assoc, String.append_empty]
  · intro h
    refine ⟨?_, ?_, ?_⟩
    · rw [build_summary_prompt_decomp, if_pos h, String.append_empty]
    · unfold image_prompt
      rw [if_pos h]
    · decide

theorem analyze_image_eq (cfg : Config) (gen : String → Option String)
    (net : String → String → HttpOutcome) (vision : String → ImagePart → Option String)
    (pil : List Nat → Option (Nat × Nat)) (f : ImageFile) (oRaw : Option Options) :
    analyze cfg gen net vision pil (.formBody "image_context" (some f) oRaw) =
      (.imageResp 200
        (if truthy (image_context cfg vision
            (image_prompt (orDefault (oRaw.getD emptyOptions).language ""))
            (encode_image f).1).1 = true
         then (image_context cfg vision
            (image_prompt (orDefault (oRaw.getD emptyOptions).language ""))
            (encode_image f).1).1.getD ""
         else vision_sentinel)
        cfg.defaultModel
        (size_str_of pil (encode_image f).2)
        (oRaw.getD emptyOptions),
       (image_context cfg vision
          (image_prompt (orDefault (oRaw.getD emptyOptions).language ""))
          (encode_image f).1).2) := rfl

theorem imageContextEntered_mem (cfg : Config) (vision : String → ImagePart → Option String)
    (p : String) (part : ImagePart) :
    Ev.imageContextEntered ∈ (image_context cfg vision p part).2 := by
  cases h : cfg.genaiModel <;> simp [image_context, h]

/-- C4: an image-context request with the image file present always produces a
200 image-analysis success response (never a hard failure from provider
exhaustion); when the managed-library client is unavailable, or its vision call
returns absent, the analysis text is the sentinel unavailability message. -/
theorem image_request_sentinel (cfg : Config) (gen : String → Option String)
    (net : String → String → HttpOutcome) (vision : String → ImagePart → Option String)
    (pil : List Nat → Option (Nat × Nat)) (f : ImageFile) (oRaw : Option Options) :
    isImage200 (analyze cfg gen net vision pil
      (.formBody "image_context" (some f) oRaw)).1 = true ∧
    ((cfg.genaiModel = none ∨
        vision (image_prompt (orDefault (oRaw.getD emptyOptions).language ""))
          (encode_image f).1 = none) →
      (analyze cfg gen net vision pil
          (.formBody "image_context" (some f) oRaw)).1 =
        .imageResp 200 vision_sentinel cfg.defaultModel
          (size_str_of pil (encode_image f).2) (oRaw.getD emptyOptions)) := by
  rw [analyze_image_eq]
  constructor
  · rfl
  · intro h
    have hic : (image_context cfg vision
        (image_prompt (orDefault (oRaw.getD emptyOptions).language ""))
        (encode_image f).1).1 = none := by
      rcases h with hm | hv
      · simp [image_context, hm]
      · cases hm : cfg.genaiModel <;> simp [image_context, hm, hv]
    rw [hic]
    simp [truthy]

/-- Witness for `image_request_sentinel`: a concrete request against an
unavailable managed client yields the 200 sentinel response. -/
theorem image_request_sentinel_witness :
    (analyze ⟨"k", "gemini-2.0-flash", none⟩ (fun _ => none) (fun _ _ => .exn)
        (fun _ _ => none) (fun _ => none)
        (.formBody "image_context" (some ⟨[7], some "image/jpeg"⟩) none)).1 =
      .imageResp 200 vision_sentinel "gemini-2.0-flash" "unknown" emptyOptions :=
  (image_request_sentinel ⟨"k", "gemini-2.0-flash", none⟩
    (fun _ => none) (fun _ _ => .exn) (fun _ _ => none) (fun _ => none)
    ⟨[7], some "image/jpeg"⟩ none).2 (Or.inl rfl)

/-- C7: for a raw-network generate call with a configured key, an exception
yields absent, a non-200 status yields absent, a 200 response whose body is not
JSON yields absent, and a 200 JSON response yields the stripped first text part
of the first candidate exactly when the body has that shape (absent otherwise);
the call never propagates a failure. -/
theorem http_generate_parse (key : String) (net : String → String → HttpOutcome)
    (prompt model_name : String) (hk : key ≠ "") :
    (net prompt model_name = .exn →
      (http_generate key net prompt model_name).1 = none) ∧
    (∀ st body, net prompt model_name = .resp st body → st ≠ 200 →
      (http_generate key net prompt model_name).1 = none) ∧
    (net prompt model_name = .resp 200 none →
      (http_generate key net prompt model_name).1 = none) ∧
    (∀ data, net prompt model_name = .resp 200 (some data) →
      (http_generate key net prompt model_name).1 =
        (extract_candidate_text data).map pyStrip) := by
  unfold http_generate
  rw [if_neg hk]
  refine ⟨?_, ?_, ?_, ?_⟩
  · intro h
    rw [h]
  · intro st body h hst
    rw [h]
    simp [hst]
  · intro h
    rw [h]
    rfl
  · intro data h
    rw [h]
    rfl

/-- Witness for `http_generate_parse`: a 200 response with the expected shape
around `" hi "` yields the stripped text `hi`. -/
theorem http_generate_parse_witness :
    (http_generate "k"
        (fun _ _ => .resp 200 (some (Json.obj [("candidates", Json.arr [Json.obj
          [("content", Json.obj [("parts", Json.arr [Json.obj
            [("text", Json.str " hi ")]])])]])])))
        "p" "m").1 = some "hi" := by
  have h := (http_generate_parse "k"
    (fun _ _ => .resp 200 (some (Json.obj [("candidates", Json.arr [Json.obj
      [("content", Json.obj [("parts", Json.arr [Json.obj
        [("text", Json.str " hi ")]])])]])])))
    "p" "m" (by decide)).2.2.2 _ rfl
  rw [h]
  rfl

/-- C10: with an empty configured API key, a raw-network generate call returns
absent without issuing any HTTP request, and no summarization request ever
issues an HTTP request (both raw-network tiers are unavailable). -/
theorem empty_key_no_http (cfg : Config) (gen : String → Option String)
    (net : String → String → HttpOutcome) (prompt model_name text : String)
    (options : Options) (hk : cfg.apiKey = "") :
    http_generate cfg.apiKey net prompt model_name = (none, []) ∧
    (∀ m, Ev.httpReq m ∉ (summarize cfg gen net text options).2) := by
  have h1 : ∀ p mn, http_generate cfg.apiKey net p mn = (none, []) := by
    intro p mn
    unfold http_generate
    rw [if_pos hk]
  refine ⟨h1 _ _, ?_⟩
  intro m
  have hg := genai_trace_no_http cfg gen (build_summary_prompt text options) m
  unfold summarize
  by_cases t1 : truthy (genai_summarize cfg gen (build_summary_prompt text options)).1
  · simp only [t1, if_true, List.mem_cons]
    rintro (h | h)
    · exact Ev.noConfusion h
    · exact hg h
  · have ht : truthy (none : Option String) = false := rfl
    simp only [t1, if_false, Bool.false_eq_true, h1, ht, List.append_nil, List.mem_cons]
    rintro (h | h)
    · exact Ev.noConfusion h
    · exact hg h

/-- Witness for `empty_key_no_http`: with the empty key, a concrete call issues
nothing and a concrete summarization performs no HTTP request. -/
theorem empty_key_no_http_witness :
    http_generate ("" : String) (fun _ _ => .exn) "p" "m" = (none, []) ∧
    Ev.httpReq "m" ∉ (summarize ⟨"", "gemini-2.0-flash", none⟩ (fun _ => none)
      (fun _ _ => .exn) "t" emptyOptions).2 := by
  refine ⟨(empty_key_no_http ⟨"", "gemini-2.0-flash", none⟩ (fun _ => none)
    (fun _ _ => .exn) "p" "m" "t" emptyOptions rfl).1,
    (empty_key_no_http ⟨"", "gemini-2.0-flash", none⟩ (fun _ => none)
    (fun _ _ => .exn) "p" "m" "t" emptyOptions rfl).2 "m"⟩

theorem analyze_json_eq (cfg : Config) (gen : String → Option String)
    (net : String → String → HttpOutcome) (vision : String → ImagePart → Option String)
    (pil : List Nat → Option (Nat × Nat)) (payload : JsonPayload) :
    analyze cfg gen net vision pil (.jsonBody (some payload)) =
      (if orDefault payload.mode "summarize" ≠ "summarize" then
        (.err 400 "Unsupported JSON mode", [])
       else if pyStrip (orDefault payload.text "") = "" then
        (.err 400 "No text provided", [])
       else
        match summarize cfg gen net (pyStrip (orDefault payload.text ""))
            (payload.options.getD emptyOptions) with
        | (.ok r, tr) => (.summaryResp 200 r, tr)
        | (.error e, tr) => (.err 502 e, tr)) := rfl

/-- C8 counterexample: a multipart request whose image file is present but has
empty bytes is not rejected: the orchestrator `image_context` is invoked (the
trace shows its entry) and a 200 success response is returned, contradicting
the claim that empty image bytes are rejected before the orchestrator runs. -/
theorem empty_image_bytes_not_rejected_cex :
    (analyze ⟨"", "gemini-2.0-flash", none⟩ (fun _ => none) (fun _ _ => .exn)
        (fun _ _ => none) (fun _ => none)
        (.formBody "image_context" (some ⟨[], none⟩) none)).1 =
      .imageResp 200 vision_sentinel "gemini-2.0-flash" "unknown" emptyOptions ∧
    Ev.imageContextEntered ∈
      (analyze ⟨"", "gemini-2.0-flash", none⟩ (fun _ => none) (fun _ _ => .exn)
        (fun _ _ => none) (fun _ => none)
        (.formBody "image_context" (some ⟨[], none⟩) none)).2 := by
  constructor
  · rfl
  · rw [analyze_image_eq]
    exact imageContextEntered_mem _ _ _ _

/-- C8 (amended): a summarization request whose text is empty after stripping
is rejected with a 400 error before `summarize` is invoked (empty event trace),
and an image-context request without an image file is rejected with a 400 error
before `image_context` is invoked; but an image file that is present with empty
bytes is not rejected — `image_context` runs and a 200 response is produced. -/
theorem request_validation (cfg : Config) (gen : String → Option String)
    (net : String → String → HttpOutcome) (vision : String → ImagePart → Option String)
    (pil : List Nat → Option (Nat × Nat)) :
    (∀ payload : JsonPayload, orDefault payload.mode "summarize" = "summarize" →
      pyStrip (orDefault payload.text "") = "" →
      analyze cfg gen net vision pil (.jsonBody (some payload)) =
        (.err 400 "No text provided", [])) ∧
    (∀ oRaw : Option Options,
      analyze cfg gen net vision pil (.formBody "image_context" none oRaw) =
        (.err 400 "Image file missing", [])) ∧
    (∀ (mt : Option String) (oRaw : Option Options),
      isImage200 (analyze cfg gen net vision pil
        (.formBody "image_context" (some ⟨[], mt⟩) oRaw)).1 = true ∧
      Ev.imageContextEntered ∈ (analyze cfg gen net vision pil
        (.formBody "image_context" (some ⟨[], mt⟩) oRaw)).2) := by
  refine ⟨?_, ?_, ?_⟩
  · intro payload hmode htext
    rw [analyze_json_eq]
    rw [if_neg (by rw [hmode]; exact fun h => h rfl)]
    rw [if_pos htext]
  · intro oRaw
    rfl
  · intro mt oRaw
    constructor
    · rw [analyze_image_eq]
      rfl
    · rw [analyze_image_eq]
      exact imageContextEntered_mem _ _ _ _

/-- Witness for `request_validation`: a request whose text is whitespace only
is rejected with the 400 error and an empty trace. -/
theorem request_validation_witness :
    analyze ⟨"k", "gemini-2.0-flash", none⟩ (fun _ => none) (fun _ _ => .exn)
        (fun _ _ => none) (fun _ => none) (.jsonBody (some ⟨none, some "  ", none⟩)) =
      (.err 400 "No text provided", []) :=
  (request_validation ⟨"k", "gemini-2.0-flash", none⟩ (fun _ => none) (fun _ _ => .exn)
    (fun _ _ => none) (fun _ => none)).1 ⟨none, some "  ", none⟩ rfl rfl

/-- Witness for `summarize_fallback_order`: with an available managed client
answering `S`, the result is the managed-library success and no HTTP request
occurs. -/
theorem summarize_fallback_order_witness :
    (summarize ⟨"k", "gemini-2.0-flash", some "gemini-2.0-flash"⟩ (fun _ => some "S")
        (fun _ _ => .exn) "t" emptyOptions).1 =
      .ok ⟨"S", "gemini-2.0-flash", "genai", emptyOptions⟩ ∧
    ∀ m, Ev.httpReq m ∉ (summarize ⟨"k", "gemini-2.0-flash", some "gemini-2.0-flash"⟩
      (fun _ => some "S") (fun _ _ => .exn) "t" emptyOptions).2 :=
  (summarize_fallback_order ⟨"k", "gemini-2.0-flash", some "gemini-2.0-flash"⟩
    (fun _ => some "S") (fun _ _ => .exn) "t" emptyOptions).2.1 rfl

/-- Witness for `prompt_language_clause`: with language `French`, both prompts
contain their respond-in-French directive. -/
theorem prompt_language_clause_witness :
    containsSub (build_summary_prompt "t" ⟨none, none, some "French"⟩)
      (" in " ++ "French") = true ∧
    containsSub (image_prompt "French") (" Respond in " ++ "French" ++ ".") = true := by
  have h := (prompt_language_clause "t" ⟨none, none, some "French"⟩).1 (by decide)
  exact ⟨h.2.1, h.2.2.2⟩
